import Mathlib

/-!
Verification of the DORA embodied-intelligence bridge-and-control pipeline.

The definitions below are shallow embeddings of the Python sources:
  - `my_autonomous_driver/nodes/receiver_node.py`   (SensorDataBuffer)
  - `my_autonomous_driver/nodes/control_node.py`    (validate / clamp / UDPControlSender)
  - `my_autonomous_driver/operators/planner_operator.py` (Pure Pursuit planner)
  - `dora_nodes/control/vehicle_controller.py`      (PIDController / VehicleController)

Machine floats are modelled as exact numbers: as `ℚ` where only comparisons,
`min`/`max` and field arithmetic occur, and as `ℝ` where the code calls
trigonometric functions and square roots.
-/

namespace ReceiverNode

/-- State of `SensorDataBuffer` from `receiver_node.py`: one data slot and one
dirty flag per sensor kind (GNSS, IMU, LiDAR).  The payload types are abstract
(`α`, `β`, `γ` stand for the GNSS dict, the IMU dict and the LiDAR bytes). -/
structure SensorDataBuffer (α β γ : Type) where
  gnss_data : Option α
  imu_data : Option β
  lidar_data : Option γ
  gnss_updated : Bool
  imu_updated : Bool
  lidar_updated : Bool
deriving DecidableEq

variable {α β γ : Type}

/-- `SensorDataBuffer.__init__`. -/
def SensorDataBuffer.init : SensorDataBuffer α β γ :=
  ⟨none, none, none, false, false, false⟩

/-- `SensorDataBuffer.set_gnss`. -/
def set_gnss (v : α) (b : SensorDataBuffer α β γ) : SensorDataBuffer α β γ :=
  { b with gnss_data := some v, gnss_updated := true }

/-- `SensorDataBuffer.set_imu`. -/
def set_imu (v : β) (b : SensorDataBuffer α β γ) : SensorDataBuffer α β γ :=
  { b with imu_data := some v, imu_updated := true }

/-- `SensorDataBuffer.set_lidar`. -/
def set_lidar (v : γ) (b : SensorDataBuffer α β γ) : SensorDataBuffer α β γ :=
  { b with lidar_data := some v, lidar_updated := true }

/-- `SensorDataBuffer.get_and_clear_gnss`: returned value and buffer after the call. -/
def get_and_clear_gnss (b : SensorDataBuffer α β γ) :
    Option α × SensorDataBuffer α β γ :=
  if b.gnss_updated then (b.gnss_data, { b with gnss_updated := false }) else (none, b)

/-- `SensorDataBuffer.get_and_clear_imu`. -/
def get_and_clear_imu (b : SensorDataBuffer α β γ) :
    Option β × SensorDataBuffer α β γ :=
  if b.imu_updated then (b.imu_data, { b with imu_updated := false }) else (none, b)

/-- `SensorDataBuffer.get_and_clear_lidar`. -/
def get_and_clear_lidar (b : SensorDataBuffer α β γ) :
    Option γ × SensorDataBuffer α β γ :=
  if b.lidar_updated then (b.lidar_data, { b with lidar_updated := false }) else (none, b)

/-- One buffer operation, as issued by the listener threads (`set_*`) or by the
polling main loop (`get_and_clear_*`, whose returned value is irrelevant for
the state trace).  The buffer's lock makes every concurrent history equivalent
to a sequence of these operations. -/
inductive BufOp (α β γ : Type) where
  | setG (v : α)
  | setI (v : β)
  | setL (v : γ)
  | takeG
  | takeI
  | takeL
deriving DecidableEq

/-- State effect of one buffer operation. -/
def BufOp.apply : BufOp α β γ → SensorDataBuffer α β γ → SensorDataBuffer α β γ
  | .setG v, b => set_gnss v b
  | .setI v, b => set_imu v b
  | .setL v, b => set_lidar v b
  | .takeG, b => (get_and_clear_gnss b).2
  | .takeI, b => (get_and_clear_imu b).2
  | .takeL, b => (get_and_clear_lidar b).2

/-- Run a sequence of buffer operations. -/
def runBuf (ops : List (BufOp α β γ)) (b : SensorDataBuffer α β γ) :
    SensorDataBuffer α β γ :=
  ops.foldl (fun s op => op.apply s) b

/-- Operations that neither set nor take the GNSS slot. -/
def BufOp.notGnss : BufOp α β γ → Prop
  | .setG _ => False
  | .takeG => False
  | _ => True

/-- Operations that neither set nor take the IMU slot. -/
def BufOp.notImu : BufOp α β γ → Prop
  | .setI _ => False
  | .takeI => False
  | _ => True

/-- Operations that neither set nor take the LiDAR slot. -/
def BufOp.notLidar : BufOp α β γ → Prop
  | .setL _ => False
  | .takeL => False
  | _ => True

theorem notGnss_apply (op : BufOp α β γ) (h : op.notGnss) (b : SensorDataBuffer α β γ) :
    (op.apply b).gnss_data = b.gnss_data ∧ (op.apply b).gnss_updated = b.gnss_updated := by
  cases op <;> simp_all [BufOp.notGnss, BufOp.apply, set_imu, set_lidar,
    get_and_clear_imu, get_and_clear_lidar] <;> split <;> simp

theorem notImu_apply (op : BufOp α β γ) (h : op.notImu) (b : SensorDataBuffer α β γ) :
    (op.apply b).imu_data = b.imu_data ∧ (op.apply b).imu_updated = b.imu_updated := by
  cases op <;> simp_all [BufOp.notImu, BufOp.apply, set_gnss, set_lidar,
    get_and_clear_gnss, get_and_clear_lidar] <;> split <;> simp

theorem notLidar_apply (op : BufOp α β γ) (h : op.notLidar) (b : SensorDataBuffer α β γ) :
    (op.apply b).lidar_data = b.lidar_data ∧ (op.apply b).lidar_updated = b.lidar_updated := by
  cases op <;> simp_all [BufOp.notLidar, BufOp.apply, set_gnss, set_imu,
    get_and_clear_gnss, get_and_clear_imu] <;> split <;> simp

theorem notGnss_run (ops : List (BufOp α β γ)) (h : ∀ op ∈ ops, op.notGnss)
    (b : SensorDataBuffer α β γ) :
    (runBuf ops b).gnss_data = b.gnss_data ∧
      (runBuf ops b).gnss_updated = b.gnss_updated := by
  induction ops generalizing b with
  | nil => simp [runBuf]
  | cons op rest ih =>
    have h1 := notGnss_apply op (h op (by simp)) b
    have h2 := ih (fun o ho => h o (by simp [ho])) (op.apply b)
    simp only [runBuf, List.foldl_cons] at h2 ⊢
    exact ⟨h2.1.trans h1.1, h2.2.trans h1.2⟩

theorem notImu_run (ops : List (BufOp α β γ)) (h : ∀ op ∈ ops, op.notImu)
    (b : SensorDataBuffer α β γ) :
    (runBuf ops b).imu_data = b.imu_data ∧
      (runBuf ops b).imu_updated = b.imu_updated := by
  induction ops generalizing b with
  | nil => simp [runBuf]
  | cons op rest ih =>
    have h1 := notImu_apply op (h op (by simp)) b
    have h2 := ih (fun o ho => h o (by simp [ho])) (op.apply b)
    simp only [runBuf, List.foldl_cons] at h2 ⊢
    exact ⟨h2.1.trans h1.1, h2.2.trans h1.2⟩

theorem notLidar_run (ops : List (BufOp α β γ)) (h : ∀ op ∈ ops, op.notLidar)
    (b : SensorDataBuffer α β γ) :
    (runBuf ops b).lidar_data = b.lidar_data ∧
      (runBuf ops b).lidar_updated = b.lidar_updated := by
  induction ops generalizing b with
  | nil => simp [runBuf]
  | cons op rest ih =>
    have h1 := notLidar_apply op (h op (by simp)) b
    have h2 := ih (fun o ho => h o (by simp [ho])) (op.apply b)
    simp only [runBuf, List.foldl_cons] at h2 ⊢
    exact ⟨h2.1.trans h1.1, h2.2.trans h1.2⟩

/-- C1: for each sensor kind (GNSS, IMU, LiDAR): after `set_*` of a value `v`
followed by any operations that neither set nor take that kind, the first
`get_and_clear_*` returns `v` and clears the dirty flag, the second consecutive
call returns `none`, and whenever a kind's flag is clear `get_and_clear_*`
returns `none`. -/
theorem claim_C1 :
    (∀ (α β γ : Type) (b : SensorDataBuffer α β γ) (v : α) (ops : List (BufOp α β γ)),
      (∀ op ∈ ops, op.notGnss) →
        (get_and_clear_gnss (runBuf ops (set_gnss v b))).1 = some v ∧
        (get_and_clear_gnss (runBuf ops (set_gnss v b))).2.gnss_updated = false ∧
        (get_and_clear_gnss (get_and_clear_gnss (runBuf ops (set_gnss v b))).2).1 = none) ∧
    (∀ (α β γ : Type) (b : SensorDataBuffer α β γ) (v : β) (ops : List (BufOp α β γ)),
      (∀ op ∈ ops, op.notImu) →
        (get_and_clear_imu (runBuf ops (set_imu v b))).1 = some v ∧
        (get_and_clear_imu (runBuf ops (set_imu v b))).2.imu_updated = false ∧
        (get_and_clear_imu (get_and_clear_imu (runBuf ops (set_imu v b))).2).1 = none) ∧
    (∀ (α β γ : Type) (b : SensorDataBuffer α β γ) (v : γ) (ops : List (BufOp α β γ)),
      (∀ op ∈ ops, op.notLidar) →
        (get_and_clear_lidar (runBuf ops (set_lidar v b))).1 = some v ∧
        (get_and_clear_lidar (runBuf ops (set_lidar v b))).2.lidar_updated = false ∧
        (get_and_clear_lidar (get_and_clear_lidar (runBuf ops (set_lidar v b))).2).1 = none) ∧
    (∀ (α β γ : Type) (b : SensorDataBuffer α β γ),
      (b.gnss_updated = false → (get_and_clear_gnss b).1 = none) ∧
      (b.imu_updated = false → (get_and_clear_imu b).1 = none) ∧
      (b.lidar_updated = false → (get_and_clear_lidar b).1 = none)) := by
  refine ⟨?_, ?_, ?_, ?_⟩
  · intro α β γ b v ops h
    obtain ⟨hd, hu⟩ := notGnss_run ops h (set_gnss v b)
    have hd' : (runBuf ops (set_gnss v b)).gnss_data = some v := by rw [hd]; rfl
    have hu' : (runBuf ops (set_gnss v b)).gnss_updated = true := by rw [hu]; rfl
    simp [get_and_clear_gnss, hd', hu']
  · intro α β γ b v ops h
    obtain ⟨hd, hu⟩ := notImu_run ops h (set_imu v b)
    have hd' : (runBuf ops (set_imu v b)).imu_data = some v := by rw [hd]; rfl
    have hu' : (runBuf ops (set_imu v b)).imu_updated = true := by rw [hu]; rfl
    simp [get_and_clear_imu, hd', hu']
  · intro α β γ b v ops h
    obtain ⟨hd, hu⟩ := notLidar_run ops h (set_lidar v b)
    have hd' : (runBuf ops (set_lidar v b)).lidar_data = some v := by rw [hd]; rfl
    have hu' : (runBuf ops (set_lidar v b)).lidar_updated = true := by rw [hu]; rfl
    simp [get_and_clear_lidar, hd', hu']
  · intro α β γ b
    refine ⟨fun h => ?_, fun h => ?_, fun h => ?_⟩
    · simp [get_and_clear_gnss, h]
    · simp [get_and_clear_imu, h]
    · simp [get_and_clear_lidar, h]

/-- Witness for C1 at a concrete trace: set GNSS to 7, then an IMU set, then
take GNSS twice. -/
theorem claim_C1_witness :
    (get_and_clear_gnss (runBuf [BufOp.setI 1]
        (set_gnss 7 (SensorDataBuffer.init (α := ℕ) (β := ℕ) (γ := ℕ))))).1 = some 7 ∧
    (get_and_clear_gnss (get_and_clear_gnss (runBuf [BufOp.setI 1]
        (set_gnss 7 (SensorDataBuffer.init (α := ℕ) (β := ℕ) (γ := ℕ))))).2).1 = none := by
  have h := claim_C1.1 ℕ ℕ ℕ SensorDataBuffer.init 7 [BufOp.setI 1]
    (by intro op hop; simp at hop; subst hop; trivial)
  exact ⟨h.1, h.2.2⟩

end ReceiverNode

namespace ControlNode

/-- Constant `MIN_STEER` from `control_node.py`. -/
def MIN_STEER : ℚ := -1
/-- Constant `MAX_STEER` from `control_node.py`. -/
def MAX_STEER : ℚ := 1
/-- Constant `MIN_THROTTLE` from `control_node.py`. -/
def MIN_THROTTLE : ℚ := 0
/-- Constant `MAX_THROTTLE` from `control_node.py`. -/
def MAX_THROTTLE : ℚ := 1
/-- Constant `MIN_BRAKE` from `control_node.py`. -/
def MIN_BRAKE : ℚ := 0
/-- Constant `MAX_BRAKE` from `control_node.py`. -/
def MAX_BRAKE : ℚ := 1
/-- Constant `SEND_RETRY_ATTEMPTS` from `control_node.py`. -/
def SEND_RETRY_ATTEMPTS : ℕ := 3

/-- A control-command dictionary.  Each of the three control keys may be absent
(`none`), matching the `"steer" in clamped` / `.get("steer", 0.0)` handling in
the source; float values are modelled exactly. -/
structure ControlCommand where
  steer : Option ℚ
  throttle : Option ℚ
  brake : Option ℚ
  timestamp : Option ℚ
deriving DecidableEq

/-- `validate_control_command`: each field is read with default `0.0` and
checked against its range; any out-of-range field makes the result `false`. -/
def validate_control_command (c : ControlCommand) : Bool :=
  decide (MIN_STEER ≤ c.steer.getD 0 ∧ c.steer.getD 0 ≤ MAX_STEER) &&
  decide (MIN_THROTTLE ≤ c.throttle.getD 0 ∧ c.throttle.getD 0 ≤ MAX_THROTTLE) &&
  decide (MIN_BRAKE ≤ c.brake.getD 0 ∧ c.brake.getD 0 ≤ MAX_BRAKE)

/-- `clamp_control_command`: clamp each of the three control keys when present;
all other entries (the timestamp) are copied unchanged. -/
def clamp_control_command (c : ControlCommand) : ControlCommand :=
  { c with
    steer := c.steer.map fun s => max MIN_STEER (min MAX_STEER s)
    throttle := c.throttle.map fun t => max MIN_THROTTLE (min MAX_THROTTLE t)
    brake := c.brake.map fun b => max MIN_BRAKE (min MAX_BRAKE b) }

theorem clamp_field_eq_self {lo hi x : ℚ} (hlohi : lo ≤ hi) :
    max lo (min hi x) = x ↔ lo ≤ x ∧ x ≤ hi := by
  constructor
  · intro h
    constructor
    · rw [← h]; exact le_max_left _ _
    · rw [← h]
      exact max_le hlohi (min_le_left _ _)
  · intro ⟨h1, h2⟩
    rw [min_eq_right h2, max_eq_right h1]

theorem clamp_option_eq_self {lo hi : ℚ} (hlohi : lo ≤ hi) (o : Option ℚ) :
    o.map (fun x => max lo (min hi x)) = o ↔ ∀ x ∈ o, lo ≤ x ∧ x ≤ hi := by
  cases o with
  | none => simp
  | some x => simp [clamp_field_eq_self hlohi]

theorem clamp_field_mem {lo hi x : ℚ} (h : lo ≤ hi) :
    lo ≤ max lo (min hi x) ∧ max lo (min hi x) ≤ hi :=
  ⟨le_max_left _ _, max_le h (min_le_left _ _)⟩

theorem clamp_field_idem {lo hi x : ℚ} (h : lo ≤ hi) :
    max lo (min hi (max lo (min hi x))) = max lo (min hi x) :=
  (clamp_field_eq_self h).2 (clamp_field_mem h)

theorem clamp_option_idem {lo hi : ℚ} (h : lo ≤ hi) (o : Option ℚ) :
    ((o.map fun x => max lo (min hi x)).map fun x => max lo (min hi x)) =
      o.map fun x => max lo (min hi x) := by
  cases o with
  | none => rfl
  | some v => simp [clamp_field_idem h]

theorem validate_field_iff {lo hi : ℚ} (h0 : lo ≤ 0) (h1 : 0 ≤ hi) (o : Option ℚ) :
    (lo ≤ o.getD 0 ∧ o.getD 0 ≤ hi) ↔ ∀ x ∈ o, lo ≤ x ∧ x ≤ hi := by
  cases o <;> simp_all

/-- C5: every field of `clamp_control_command c` that is present lies in its
documented range, clamping is idempotent, and `validate_control_command c`
holds exactly when clamping leaves `c` unchanged. -/
theorem claim_C5 (c : ControlCommand) :
    (∀ x ∈ (clamp_control_command c).steer, MIN_STEER ≤ x ∧ x ≤ MAX_STEER) ∧
    (∀ x ∈ (clamp_control_command c).throttle, MIN_THROTTLE ≤ x ∧ x ≤ MAX_THROTTLE) ∧
    (∀ x ∈ (clamp_control_command c).brake, MIN_BRAKE ≤ x ∧ x ≤ MAX_BRAKE) ∧
    clamp_control_command (clamp_control_command c) = clamp_control_command c ∧
    (validate_control_command c = true ↔ clamp_control_command c = c) := by
  obtain ⟨s, t, b, ts⟩ := c
  refine ⟨?_, ?_, ?_, ?_, ?_⟩
  · intro x hx
    cases s with
    | none => simp [clamp_control_command] at hx
    | some v =>
      simp [clamp_control_command] at hx
      subst hx
      exact clamp_field_mem (by norm_num [MIN_STEER, MAX_STEER])
  · intro x hx
    cases t with
    | none => simp [clamp_control_command] at hx
    | some v =>
      simp [clamp_control_command] at hx
      subst hx
      exact clamp_field_mem (by norm_num [MIN_THROTTLE, MAX_THROTTLE])
  · intro x hx
    cases b with
    | none => simp [clamp_control_command] at hx
    | some v =>
      simp [clamp_control_command] at hx
      subst hx
      exact clamp_field_mem (by norm_num [MIN_BRAKE, MAX_BRAKE])
  · show ControlCommand.mk _ _ _ _ = ControlCommand.mk _ _ _ _
    simp only [clamp_control_command]
    congr 1
    · exact clamp_option_idem (by norm_num [MIN_STEER, MAX_STEER]) s
    · exact clamp_option_idem (by norm_num [MIN_THROTTLE, MAX_THROTTLE]) t
    · exact clamp_option_idem (by norm_num [MIN_BRAKE, MAX_BRAKE]) b
  · simp only [validate_control_command, Bool.and_eq_true, decide_eq_true_eq,
      clamp_control_command, ControlCommand.mk.injEq, and_true,
      clamp_option_eq_self (show MIN_STEER ≤ MAX_STEER by norm_num [MIN_STEER, MAX_STEER]),
      clamp_option_eq_self (show MIN_THROTTLE ≤ MAX_THROTTLE by
        norm_num [MIN_THROTTLE, MAX_THROTTLE]),
      clamp_option_eq_self (show MIN_BRAKE ≤ MAX_BRAKE by norm_num [MIN_BRAKE, MAX_BRAKE]),
      validate_field_iff (show MIN_STEER ≤ 0 by norm_num [MIN_STEER])
        (show (0 : ℚ) ≤ MAX_STEER by norm_num [MAX_STEER]),
      validate_field_iff (show MIN_THROTTLE ≤ 0 by norm_num [MIN_THROTTLE])
        (show (0 : ℚ) ≤ MAX_THROTTLE by norm_num [MAX_THROTTLE]),
      validate_field_iff (show MIN_BRAKE ≤ 0 by norm_num [MIN_BRAKE])
        (show (0 : ℚ) ≤ MAX_BRAKE by norm_num [MAX_BRAKE])]
    tauto

/-- Witness for C5 at a concrete command with an out-of-range steer value. -/
theorem claim_C5_witness :
    (MIN_STEER ≤ (1 : ℚ) ∧ (1 : ℚ) ≤ MAX_STEER) ∧
    clamp_control_command (clamp_control_command ⟨some 2, some (1/2), none, some 3⟩) =
      clamp_control_command ⟨some 2, some (1/2), none, some 3⟩ ∧
    (validate_control_command ⟨some 2, some (1/2), none, some 3⟩ = true ↔
      clamp_control_command ⟨some 2, some (1/2), none, some 3⟩ =
        ⟨some 2, some (1/2), none, some 3⟩) := by
  have h := claim_C5 ⟨some 2, some (1/2), none, some 3⟩
  exact ⟨h.1 1 (by decide), h.2.2.2.1, h.2.2.2.2⟩

/-- Result of one `socket.sendto` attempt: either it returned a byte count, or
it raised (`socket.timeout`, `socket.error`, or any other exception — all three
handlers in the source behave identically: log and fall through to the retry). -/
inductive SendOutcome where
  | sent (n : ℕ)
  | failed
deriving DecidableEq

/-- A transmission attempt counts as failed when it raised, or when it was a
short write (returned byte count differs from the datagram length `L`). -/
def SendOutcome.fails (L : ℕ) : SendOutcome → Bool
  | .sent n => decide (n ≠ L)
  | .failed => true

/-- Mutable state of `UDPControlSender`: whether `self.socket` is non-`None`,
plus the two statistics counters. -/
structure SenderState where
  hasSocket : Bool
  commands_sent : ℕ
  send_failures : ℕ
deriving DecidableEq

/-- The `for attempt in range(SEND_RETRY_ATTEMPTS)` retry loop of
`send_control_command`, applied to the list of attempt outcomes.  A full write
(`bytes_sent == len(control_bytes)`) increments `commands_sent` and returns
`True`; a short write or an exception falls through to the next attempt; when
the list of attempts is exhausted `send_failures` is incremented once and the
call returns `False`.  (`time.sleep(RETRY_DELAY)` has no modelled effect.) -/
def send_loop (L : ℕ) : List SendOutcome → SenderState → Bool × SenderState
  | [], st => (false, { st with send_failures := st.send_failures + 1 })
  | o :: rest, st =>
    match o with
    | .sent n =>
      if n = L then (true, { st with commands_sent := st.commands_sent + 1 })
      else send_loop L rest st
    | .failed => send_loop L rest st

/-- Length of the serialized datagram actually transmitted: the command is
validated, clamped only when invalid, and then serialized (serialization of a
float dict never fails; `encodeLen` abstracts `len(json.dumps(c).encode())`). -/
def wireLen (encodeLen : ControlCommand → ℕ) (c : ControlCommand) : ℕ :=
  encodeLen (if validate_control_command c then c else clamp_control_command c)

/-- `UDPControlSender.send_control_command`.  `sockOk` is the environment's
answer to the single `_create_socket()` re-creation attempt made when
`self.socket is None`; `outcomes i` is the result of the i-th `sendto`. -/
def send_control_command (sockOk : Bool) (encodeLen : ControlCommand → ℕ)
    (outcomes : ℕ → SendOutcome) (c : ControlCommand) (st : SenderState) :
    Bool × SenderState :=
  let st1 := if st.hasSocket then st else { st with hasSocket := sockOk }
  if st1.hasSocket = false then (false, st1)
  else
    send_loop (wireLen encodeLen c)
      ((List.range SEND_RETRY_ATTEMPTS).map outcomes) st1

theorem send_loop_all_fail (L : ℕ) (os : List SendOutcome) (st : SenderState)
    (h : ∀ o ∈ os, o.fails L = true) :
    send_loop L os st = (false, { st with send_failures := st.send_failures + 1 }) := by
  induction os with
  | nil => rfl
  | cons o rest ih =>
    cases o with
    | failed =>
      simpa [send_loop] using ih fun o ho => h o (by simp [ho])
    | sent n =>
      have hn := h (.sent n) (by simp)
      simp only [SendOutcome.fails, decide_eq_true_eq] at hn
      simpa [send_loop, hn] using ih fun o ho => h o (by simp [ho])

/-- C6: with an available socket, if every one of the `SEND_RETRY_ATTEMPTS`
attempts fails (exception or short write), `send_control_command` returns
`false`, `send_failures` grows by exactly 1, and `commands_sent` is unchanged. -/
theorem claim_C6 (sockOk : Bool) (encodeLen : ControlCommand → ℕ)
    (outcomes : ℕ → SendOutcome) (c : ControlCommand) (st : SenderState)
    (hs : st.hasSocket = true)
    (hf : ∀ i < SEND_RETRY_ATTEMPTS, (outcomes i).fails (wireLen encodeLen c) = true) :
    (send_control_command sockOk encodeLen outcomes c st).1 = false ∧
    (send_control_command sockOk encodeLen outcomes c st).2.send_failures =
      st.send_failures + 1 ∧
    (send_control_command sockOk encodeLen outcomes c st).2.commands_sent =
      st.commands_sent := by
  have hloop := send_loop_all_fail (wireLen encodeLen c)
    ((List.range SEND_RETRY_ATTEMPTS).map outcomes) st
    (by
      intro o ho
      simp only [List.mem_map, List.mem_range] at ho
      obtain ⟨i, hi, rfl⟩ := ho
      exact hf i hi)
  simp [send_control_command, hs, hloop]

/-- Witness for C6: sender with a live socket and three raising attempts. -/
theorem claim_C6_witness :
    (send_control_command true (fun _ => 4) (fun _ => SendOutcome.failed)
      ⟨none, none, none, none⟩ ⟨true, 2, 3⟩).1 = false ∧
    (send_control_command true (fun _ => 4) (fun _ => SendOutcome.failed)
      ⟨none, none, none, none⟩ ⟨true, 2, 3⟩).2.send_failures = 3 + 1 ∧
    (send_control_command true (fun _ => 4) (fun _ => SendOutcome.failed)
      ⟨none, none, none, none⟩ ⟨true, 2, 3⟩).2.commands_sent = 2 :=
  claim_C6 true (fun _ => 4) (fun _ => SendOutcome.failed)
    ⟨none, none, none, none⟩ ⟨true, 2, 3⟩ rfl (by decide)

/-- Counterexample for C7 as stated: with `self.socket is None` and a failing
re-creation attempt, the call returns `False` but `send_failures` stays at its
old value 7 — the claimed increment does not happen. -/
theorem claim_C7_counterexample :
    (send_control_command false (fun _ => 10) (fun _ => SendOutcome.failed)
      ⟨none, none, none, none⟩ ⟨false, 5, 7⟩).1 = false ∧
    (send_control_command false (fun _ => 10) (fun _ => SendOutcome.failed)
      ⟨none, none, none, none⟩ ⟨false, 5, 7⟩).2.send_failures = 7 ∧
    ¬ (send_control_command false (fun _ => 10) (fun _ => SendOutcome.failed)
      ⟨none, none, none, none⟩ ⟨false, 5, 7⟩).2.send_failures = 7 + 1 := by
  decide

/-- C7 (amended): with `self.socket is None`, one re-creation attempt is made;
if it fails the call returns `False` without raising and leaves both counters
unchanged (`send_failures` is NOT incremented); if it succeeds the call
proceeds exactly as with a live socket. -/
theorem claim_C7_amended (encodeLen : ControlCommand → ℕ)
    (outcomes : ℕ → SendOutcome) (c : ControlCommand) (st : SenderState)
    (h : st.hasSocket = false) :
    (send_control_command false encodeLen outcomes c st).1 = false ∧
    (send_control_command false encodeLen outcomes c st).2.send_failures =
      st.send_failures ∧
    (send_control_command false encodeLen outcomes c st).2.commands_sent =
      st.commands_sent ∧
    send_control_command true encodeLen outcomes c st =
      send_control_command true encodeLen outcomes c { st with hasSocket := true } := by
  refine ⟨?_, ?_, ?_, ?_⟩ <;> simp [send_control_command, h]

/-- Witness for the amended C7 at a concrete socketless sender state. -/
theorem claim_C7_witness :
    (send_control_command false (fun _ => 10) (fun _ => SendOutcome.failed)
      ⟨none, none, none, none⟩ ⟨false, 5, 7⟩).1 = false ∧
    (send_control_command false (fun _ => 10) (fun _ => SendOutcome.failed)
      ⟨none, none, none, none⟩ ⟨false, 5, 7⟩).2.send_failures = 7 ∧
    (send_control_command false (fun _ => 10) (fun _ => SendOutcome.failed)
      ⟨none, none, none, none⟩ ⟨false, 5, 7⟩).2.commands_sent = 5 := by
  have h := claim_C7_amended (fun _ => 10) (fun _ => SendOutcome.failed)
    ⟨none, none, none, none⟩ ⟨false, 5, 7⟩ rfl
  exact ⟨h.1, h.2.1, h.2.2.1⟩

end ControlNode

namespace VehicleControl

/-- `PIDController` from `dora_nodes/control/vehicle_controller.py`: gains plus
the two pieces of mutable state. -/
structure PIDController where
  kp : ℚ
  ki : ℚ
  kd : ℚ
  previous_error : ℚ
  integral : ℚ
deriving DecidableEq

/-- `PIDController.__init__(kp, ki, kd)`: fresh state is zero. -/
def PIDController.init (kp ki kd : ℚ) : PIDController :=
  ⟨kp, ki, kd, 0, 0⟩

/-- `PIDController.compute(setpoint, measured_value, dt)`: returns the control
output and the controller after its state update.  The integral is accumulated
before the output is formed; the derivative uses the stored previous error and
is zero when `dt ≤ 0`. -/
def PIDController.compute (p : PIDController) (setpoint measured dt : ℚ) :
    ℚ × PIDController :=
  let error := setpoint - measured
  let integral := p.integral + error * dt
  let derivative := if 0 < dt then (error - p.previous_error) / dt else 0
  let output := p.kp * error + p.ki * integral + p.kd * derivative
  (output, { p with previous_error := error, integral := integral })

/-- `PIDController.reset()`. -/
def PIDController.reset (p : PIDController) : PIDController :=
  { p with previous_error := 0, integral := 0 }

/-- A sequence of `compute` calls (setpoint, measured value, dt), outputs
discarded. -/
def runPID (calls : List (ℚ × ℚ × ℚ)) (p : PIDController) : PIDController :=
  calls.foldl (fun q c => (q.compute c.1 c.2.1 c.2.2).2) p

theorem runPID_gains (calls : List (ℚ × ℚ × ℚ)) (p : PIDController) :
    (runPID calls p).kp = p.kp ∧ (runPID calls p).ki = p.ki ∧
      (runPID calls p).kd = p.kd := by
  induction calls generalizing p with
  | nil => exact ⟨rfl, rfl, rfl⟩
  | cons c rest ih =>
    simpa [runPID, PIDController.compute] using ih (p.compute c.1 c.2.1 c.2.2).2

/-- C9: `reset()` zeroes both `previous_error` and `integral`, so after any
sequence of `compute` calls on a freshly constructed controller, a `reset`
followed by `compute` gives exactly the output (and state) of the first
`compute` on a fresh controller with the same gains and inputs. -/
theorem claim_C9 (kp ki kd : ℚ) (p : PIDController) (calls : List (ℚ × ℚ × ℚ))
    (setpoint measured dt : ℚ) :
    p.reset.previous_error = 0 ∧ p.reset.integral = 0 ∧
    (runPID calls (PIDController.init kp ki kd)).reset.compute setpoint measured dt =
      (PIDController.init kp ki kd).compute setpoint measured dt := by
  refine ⟨rfl, rfl, ?_⟩
  have h : (runPID calls (PIDController.init kp ki kd)).reset =
      PIDController.init kp ki kd := by
    obtain ⟨h1, h2, h3⟩ := runPID_gains calls (PIDController.init kp ki kd)
    simp only [PIDController.reset, PIDController.init, PIDController.mk.injEq]
    exact ⟨h1, h2, h3, trivial, trivial⟩
  rw [h]

/-- `VehicleController` state from `vehicle_controller.py`: the two PID
instances and the three scalar inputs. -/
structure VehicleController where
  speed_controller : PIDController
  steering_controller : PIDController
  current_speed : ℚ
  target_speed : ℚ
  target_steering : ℚ
deriving DecidableEq

/-- `VehicleController.__init__` wiring: speed PID gains (0.5, 0.1, 0.05),
steering PID gains (1.0, 0.0, 0.1), all scalars zero. -/
def VehicleController.init : VehicleController :=
  ⟨PIDController.init (1/2) (1/10) (1/20), PIDController.init 1 0 (1/10), 0, 0, 0⟩

/-- The control dictionary returned by `compute_control` (all three keys are
always present). -/
structure Control where
  throttle : ℚ
  steer : ℚ
  brake : ℚ
deriving DecidableEq

/-- `VehicleController.compute_control`: runs the speed PID (with the default
`dt = 0.05`), splits its output into throttle (positive) or brake (negative),
clamps both into `[0, 1]`, and passes the target steering through clamped to
`[-1, 1]` — the steering PID instance is not consulted. -/
def VehicleController.compute_control (v : VehicleController) :
    Control × VehicleController :=
  let r := v.speed_controller.compute v.target_speed v.current_speed (1/20)
  let throttle_brake := r.1
  let throttle := if 0 < throttle_brake then min (max throttle_brake 0) 1 else 0
  let brake := if 0 < throttle_brake then 0 else min (max (-throttle_brake) 0) 1
  let steer := max (min v.target_steering 1) (-1)
  (⟨throttle, steer, brake⟩, { v with speed_controller := r.2 })

/-- C8: for every controller state, `compute_control` returns throttle in
`[0,1]`, brake in `[0,1]`, steer in `[-1,1]`; a positive speed-PID output
selects throttle (brake = 0), a non-positive one selects brake (throttle = 0),
so at least one of throttle and brake is 0; and steer is exactly the target
steering clamped to `[-1,1]` (the steering PID is bypassed). -/
theorem claim_C8 (v : VehicleController) :
    0 ≤ (v.compute_control.1).throttle ∧ (v.compute_control.1).throttle ≤ 1 ∧
    0 ≤ (v.compute_control.1).brake ∧ (v.compute_control.1).brake ≤ 1 ∧
    (-1) ≤ (v.compute_control.1).steer ∧ (v.compute_control.1).steer ≤ 1 ∧
    (0 < (v.speed_controller.compute v.target_speed v.current_speed (1/20)).1 →
      (v.compute_control.1).brake = 0) ∧
    ((v.speed_controller.compute v.target_speed v.current_speed (1/20)).1 ≤ 0 →
      (v.compute_control.1).throttle = 0) ∧
    ((v.compute_control.1).throttle = 0 ∨ (v.compute_control.1).brake = 0) ∧
    (v.compute_control.1).steer = max (min v.target_steering 1) (-1) := by
  by_cases h : 0 < (v.speed_controller.compute v.target_speed v.current_speed (1/20)).1
  · simp only [VehicleController.compute_control, if_pos h]
    exact ⟨le_min (le_max_right _ _) zero_le_one, min_le_right _ _, le_refl 0, zero_le_one,
      le_max_right _ _, max_le (min_le_right _ _) (by norm_num),
      fun _ => trivial, fun h' => absurd h (not_lt.2 h'), Or.inr trivial, trivial⟩
  · simp only [VehicleController.compute_control, if_neg h]
    exact ⟨le_refl 0, zero_le_one, le_min (le_max_right _ _) zero_le_one, min_le_right _ _,
      le_max_right _ _, max_le (min_le_right _ _) (by norm_num),
      fun h' => absurd h' h, fun _ => trivial, Or.inl trivial, trivial⟩

/-- Witness for C8 at the freshly initialized controller (speed-PID output 0,
so the brake branch is selected and throttle is 0). -/
theorem claim_C8_witness :
    0 ≤ (VehicleController.init.compute_control.1).throttle ∧
    (VehicleController.init.compute_control.1).throttle = 0 ∧
    (VehicleController.init.compute_control.1).steer =
      max (min VehicleController.init.target_steering 1) (-1) :=
  ⟨(claim_C8 VehicleController.init).1,
    (claim_C8 VehicleController.init).2.2.2.2.2.2.2.1
      (by norm_num [VehicleController.init, PIDController.init, PIDController.compute]),
    (claim_C8 VehicleController.init).2.2.2.2.2.2.2.2.2⟩

end VehicleControl

namespace PlannerOperator

/-- `math.atan2(y, x)` (C semantics, as used by Python's `math` module):
angle of the point `(x, y)`, in `(-π, π]`, with `atan2 0 0 = 0`. -/
noncomputable def atan2 (y x : ℝ) : ℝ :=
  open Classical in
  if 0 < x then Real.arctan (y / x)
  else if x < 0 then
    (if 0 ≤ y then Real.arctan (y / x) + Real.pi else Real.arctan (y / x) - Real.pi)
  else
    (if 0 < y then Real.pi / 2 else if y < 0 then -(Real.pi / 2) else 0)

/-- `calculate_distance` from `planner_operator.py`. -/
noncomputable def calculate_distance (point1 point2 : ℝ × ℝ) : ℝ :=
  let dx := point2.1 - point1.1
  let dy := point2.2 - point1.2
  Real.sqrt (dx * dx + dy * dy)

/-- The `for i in range(current_waypoint_index, len(waypoints))` scan of
`find_lookahead_point`, over the remaining waypoints, carrying the absolute
index `i`: return the first waypoint at distance at least
`lookahead_distance * 0.8` from the vehicle. -/
noncomputable def lookaheadScan (position : ℝ × ℝ) (lookahead_distance : ℝ) :
    List (ℝ × ℝ) → ℕ → Option ((ℝ × ℝ) × ℕ)
  | [], _ => none
  | w :: rest, i =>
    open Classical in
    if lookahead_distance * 0.8 ≤ calculate_distance position w then some (w, i)
    else lookaheadScan position lookahead_distance rest (i + 1)

/-- `find_lookahead_point` from `planner_operator.py`: scan forward from
`current_waypoint_index`; if no waypoint is far enough, fall back to the last
waypoint; `(none, current_waypoint_index)` only when the list is empty. -/
noncomputable def find_lookahead_point (position : ℝ × ℝ) (waypoints : List (ℝ × ℝ))
    (current_waypoint_index : ℕ) (lookahead_distance : ℝ) :
    Option (ℝ × ℝ) × ℕ :=
  match lookaheadScan position lookahead_distance
      (waypoints.drop current_waypoint_index) current_waypoint_index with
  | some (w, i) => (some w, i)
  | none =>
    match waypoints.getLast? with
    | some w => (some w, waypoints.length - 1)
    | none => (none, current_waypoint_index)

/-- `calculate_pure_pursuit_steering` from `planner_operator.py`. -/
noncomputable def calculate_pure_pursuit_steering (vehicle_position : ℝ × ℝ)
    (vehicle_heading : ℝ) (target_point : ℝ × ℝ) (wheelbase : ℝ) : ℝ :=
  open Classical in
  let dx := target_point.1 - vehicle_position.1
  let dy := target_point.2 - vehicle_position.2
  let target_angle := atan2 dy dx
  let alpha0 := target_angle - vehicle_heading
  let alpha := atan2 (Real.sin alpha0) (Real.cos alpha0)
  let ld := Real.sqrt (dx * dx + dy * dy)
  if ld < 0.1 then 0
  else
    let steering_angle := Real.arctan (2 * wheelbase * Real.sin alpha / ld)
    let normalized_steering := steering_angle / 0.52
    max (-1) (min 1 normalized_steering)

/-- The claimed steering formula, written as the specification words it:
the distance guard, then `clamp(atan(2 * wheelbase * sin(alpha) / ld) / 0.52, -1, 1)`
with `alpha = atan2(sin(angle_to_target - theta), cos(angle_to_target - theta))`
and `ld` the Euclidean distance from vehicle to target. -/
noncomputable def steering_spec (p : ℝ × ℝ) (theta : ℝ) (t : ℝ × ℝ)
    (wheelbase : ℝ) : ℝ :=
  open Classical in
  let ld := Real.sqrt ((t.1 - p.1) ^ 2 + (t.2 - p.2) ^ 2)
  if ld < 0.1 then 0
  else
    let angle_to_target := atan2 (t.2 - p.2) (t.1 - p.1)
    let alpha := atan2 (Real.sin (angle_to_target - theta))
      (Real.cos (angle_to_target - theta))
    max (-1) (min 1 (Real.arctan (2 * wheelbase * Real.sin alpha / ld) / 0.52))

/-- Mutable state of the planner `Operator`. -/
structure PlannerState where
  current_waypoint_index : ℕ
  vehicle_position : Option (ℝ × ℝ)
  vehicle_heading : ℝ
  path_completed : Bool
  total_commands_sent : ℕ

/-- `Operator.__init__` state. -/
noncomputable def PlannerState.init : PlannerState :=
  ⟨0, none, 0, false, 0⟩

/-- The control dictionary the planner emits on `control_cmd`. -/
structure PCommand where
  steer : ℝ
  throttle : ℝ
  brake : ℝ

/-- `Operator._send_stop_command`: steer 0, throttle 0, brake 1. -/
noncomputable def stop_command : PCommand := ⟨0, 0, 1⟩

/-- Tail of `_process_gnss_data` after the waypoint-advance block: find the
lookahead point (stop if there is none), re-estimate the heading from the path
tangent when `0 < index < len(waypoints)`, compute the Pure Pursuit steering,
and emit it with the constant throttle 0.4 and zero brake. -/
noncomputable def continueTracking (waypoints : List (ℝ × ℝ)) (p : ℝ × ℝ)
    (s : PlannerState) : PlannerState × PCommand :=
  match (find_lookahead_point p waypoints s.current_waypoint_index 5).1 with
  | none => (s, stop_command)
  | some lookahead_point =>
    let s :=
      if h : 0 < s.current_waypoint_index ∧
          s.current_waypoint_index < waypoints.length then
        let prev_wp := waypoints.get ⟨s.current_waypoint_index - 1, by omega⟩
        let curr_wp := waypoints.get ⟨s.current_waypoint_index, h.2⟩
        { s with vehicle_heading :=
            atan2 (curr_wp.2 - prev_wp.2) (curr_wp.1 - prev_wp.1) }
      else s
    let steering := calculate_pure_pursuit_steering p s.vehicle_heading
      lookahead_point 2.89
    ({ s with total_commands_sent := s.total_commands_sent + 1 },
      ⟨steering, 0.4, 0⟩)

/-- `Operator._process_gnss_data` on one position fix `p` (the source reads it
as `(longitude, latitude)`) with optional heading field `hdg` (degrees).
Position and heading are stored first; a completed path answers with the stop
command; otherwise the target waypoint is advanced when within the reached
threshold 2.0, completing the path (with a stop command) when the index
reaches the route length; otherwise tracking continues. -/
noncomputable def process_gnss_data (waypoints : List (ℝ × ℝ)) (p : ℝ × ℝ)
    (hdg : Option ℝ) (s : PlannerState) : PlannerState × PCommand :=
  open Classical in
  let s : PlannerState :=
    { s with vehicle_position := some p,
             vehicle_heading := match hdg with
               | some h => h * Real.pi / 180
               | none => s.vehicle_heading }
  if s.path_completed then (s, stop_command)
  else if hlt : s.current_waypoint_index < waypoints.length then
    if calculate_distance p (waypoints.get ⟨s.current_waypoint_index, hlt⟩) < 2 then
      let s1 : PlannerState :=
        { s with current_waypoint_index := s.current_waypoint_index + 1 }
      if waypoints.length ≤ s1.current_waypoint_index then
        ({ s1 with path_completed := true }, stop_command)
      else continueTracking waypoints p s1
    else continueTracking waypoints p s
  else continueTracking waypoints p s

/-- A run of the planner over a sequence of GNSS updates, from the initial
state. -/
noncomputable def runPlanner (waypoints : List (ℝ × ℝ))
    (updates : List ((ℝ × ℝ) × Option ℝ)) : PlannerState :=
  updates.foldl (fun s u => (process_gnss_data waypoints u.1 u.2 s).1)
    PlannerState.init

theorem continueTracking_idx (waypoints : List (ℝ × ℝ)) (p : ℝ × ℝ)
    (s : PlannerState) :
    (continueTracking waypoints p s).1.current_waypoint_index =
      s.current_waypoint_index := by
  unfold continueTracking
  rcases hm : (find_lookahead_point p waypoints s.current_waypoint_index 5).1 with _ | w <;>
    simp only [hm]
  split <;> rfl

theorem continueTracking_completed (waypoints : List (ℝ × ℝ)) (p : ℝ × ℝ)
    (s : PlannerState) :
    (continueTracking waypoints p s).1.path_completed = s.path_completed := by
  unfold continueTracking
  rcases hm : (find_lookahead_point p waypoints s.current_waypoint_index 5).1 with _ | w <;>
    simp only [hm]
  split <;> rfl

theorem process_idx_step (waypoints : List (ℝ × ℝ)) (p : ℝ × ℝ) (hdg : Option ℝ)
    (s : PlannerState) :
    s.current_waypoint_index ≤
      (process_gnss_data waypoints p hdg s).1.current_waypoint_index ∧
    (process_gnss_data waypoints p hdg s).1.current_waypoint_index ≤
      s.current_waypoint_index + 1 := by
  simp only [process_gnss_data]
  split
  · exact ⟨le_refl _, Nat.le_succ _⟩
  · split
    · split
      · split
        · exact ⟨Nat.le_succ _, le_refl _⟩
        · simp only [continueTracking_idx]
          omega
      · simp only [continueTracking_idx]
        omega
    · simp only [continueTracking_idx]
      omega

theorem process_idx_le (waypoints : List (ℝ × ℝ)) (p : ℝ × ℝ) (hdg : Option ℝ)
    (s : PlannerState) (h : s.current_waypoint_index ≤ waypoints.length) :
    (process_gnss_data waypoints p hdg s).1.current_waypoint_index ≤
      waypoints.length := by
  simp only [process_gnss_data]
  split
  · exact h
  · split
    · split
      · split
        · show s.current_waypoint_index + 1 ≤ waypoints.length
          omega
        · rw [continueTracking_idx]
          show s.current_waypoint_index + 1 ≤ waypoints.length
          omega
      · rw [continueTracking_idx]
        exact h
    · rw [continueTracking_idx]
      exact h

theorem process_completed (waypoints : List (ℝ × ℝ)) (p : ℝ × ℝ) (hdg : Option ℝ)
    (s : PlannerState) (h : s.path_completed = true) :
    (process_gnss_data waypoints p hdg s).1.path_completed = true ∧
    (process_gnss_data waypoints p hdg s).1.current_waypoint_index =
      s.current_waypoint_index ∧
    (process_gnss_data waypoints p hdg s).2 = stop_command := by
  simp only [process_gnss_data]
  split
  · exact ⟨h, rfl, rfl⟩
  · exact absurd h (by assumption)

/-- The reachable-state invariant of the planner in the nonempty-route case:
the completed flag holds exactly at index = route length, and the index never
exceeds the route length. -/
def PInv (waypoints : List (ℝ × ℝ)) (s : PlannerState) : Prop :=
  (s.path_completed = true ↔ s.current_waypoint_index = waypoints.length) ∧
  s.current_waypoint_index ≤ waypoints.length

theorem process_inv (waypoints : List (ℝ × ℝ)) (p : ℝ × ℝ) (hdg : Option ℝ)
    (s : PlannerState) (h : PInv waypoints s) :
    PInv waypoints (process_gnss_data waypoints p hdg s).1 := by
  obtain ⟨hiff, hle⟩ := h
  simp only [process_gnss_data]
  split
  · exact ⟨hiff, hle⟩
  · split
    · split
      · split
        · refine ⟨iff_of_true rfl ?_, ?_⟩
          · show s.current_waypoint_index + 1 = waypoints.length
            omega
          · show s.current_waypoint_index + 1 ≤ waypoints.length
            omega
        · refine ⟨?_, ?_⟩
          · rw [continueTracking_completed, continueTracking_idx]
            refine iff_of_false (by assumption) ?_
            show ¬ (s.current_waypoint_index + 1 = waypoints.length)
            omega
          · rw [continueTracking_idx]
            show s.current_waypoint_index + 1 ≤ waypoints.length
            omega
      · refine ⟨?_, ?_⟩
        · rw [continueTracking_completed, continueTracking_idx]
          refine iff_of_false (by assumption) ?_
          intro hlen
          exact absurd (hiff.2 hlen) (by assumption)
        · rw [continueTracking_idx]
          exact hle
    · refine ⟨?_, ?_⟩
      · rw [continueTracking_completed, continueTracking_idx]
        refine iff_of_false (by assumption) ?_
        intro hlen
        exact absurd (hiff.2 hlen) (by assumption)
      · rw [continueTracking_idx]
        exact hle

/-- C3: a completed planner stays completed with the same index and answers
every further position update with the stop command (steer 0, throttle 0,
brake 1); and over any run on a nonempty route, `path_completed` holds exactly
when the waypoint index has reached the route length. -/
theorem claim_C3 :
    (∀ (waypoints : List (ℝ × ℝ)) (p : ℝ × ℝ) (hdg : Option ℝ) (s : PlannerState),
      s.path_completed = true →
        (process_gnss_data waypoints p hdg s).1.path_completed = true ∧
        (process_gnss_data waypoints p hdg s).1.current_waypoint_index =
          s.current_waypoint_index ∧
        (process_gnss_data waypoints p hdg s).2 = stop_command) ∧
    (∀ (waypoints : List (ℝ × ℝ)) (updates : List ((ℝ × ℝ) × Option ℝ)),
      waypoints ≠ [] →
        ((runPlanner waypoints updates).path_completed = true ↔
          (runPlanner waypoints updates).current_waypoint_index =
            waypoints.length)) := by
  refine ⟨process_completed, ?_⟩
  intro waypoints updates hne
  have hlen : 0 < waypoints.length := List.length_pos.2 hne
  have h : ∀ (s : PlannerState), PInv waypoints s →
      PInv waypoints
        (updates.foldl (fun s u => (process_gnss_data waypoints u.1 u.2 s).1) s) := by
    induction updates with
    | nil => intro s hs; exact hs
    | cons u rest ih =>
      intro s hs
      exact ih _ (process_inv waypoints u.1 u.2 s hs)
  refine (h PlannerState.init ⟨iff_of_false (by simp [PlannerState.init]) ?_,
    Nat.zero_le _⟩).1
  show ¬ ((0 : ℕ) = waypoints.length)
  omega

/-- Witness for C3: a concrete completed state keeps its flag and index and
emits the stop command; the run-invariant instantiated on a one-point route
with no updates. -/
theorem claim_C3_witness :
    ((process_gnss_data [((0 : ℝ), (0 : ℝ))] (3, 4) none
        ⟨1, none, 0, true, 5⟩).1.path_completed = true ∧
      (process_gnss_data [((0 : ℝ), (0 : ℝ))] (3, 4) none
        ⟨1, none, 0, true, 5⟩).1.current_waypoint_index = 1 ∧
      (process_gnss_data [((0 : ℝ), (0 : ℝ))] (3, 4) none
        ⟨1, none, 0, true, 5⟩).2 = stop_command) ∧
    ((runPlanner [((0 : ℝ), (0 : ℝ))] []).path_completed = true ↔
      (runPlanner [((0 : ℝ), (0 : ℝ))] []).current_waypoint_index = 1) :=
  ⟨claim_C3.1 [((0 : ℝ), (0 : ℝ))] (3, 4) none ⟨1, none, 0, true, 5⟩ rfl,
    claim_C3.2 [((0 : ℝ), (0 : ℝ))] [] (by simp)⟩

/-- C2: on every GNSS update the waypoint index never decreases and grows by
at most one, and over any run from the initial state it stays within
`[0, len(route)]` (the lower bound is inherent in the `ℕ` index). -/
theorem claim_C2 :
    (∀ (waypoints : List (ℝ × ℝ)) (p : ℝ × ℝ) (hdg : Option ℝ) (s : PlannerState),
      s.current_waypoint_index ≤
        (process_gnss_data waypoints p hdg s).1.current_waypoint_index ∧
      (process_gnss_data waypoints p hdg s).1.current_waypoint_index ≤
        s.current_waypoint_index + 1) ∧
    (∀ (waypoints : List (ℝ × ℝ)) (updates : List ((ℝ × ℝ) × Option ℝ)),
      (runPlanner waypoints updates).current_waypoint_index ≤ waypoints.length) := by
  refine ⟨process_idx_step, ?_⟩
  intro waypoints updates
  have h : ∀ (s : PlannerState), s.current_waypoint_index ≤ waypoints.length →
      (updates.foldl (fun s u => (process_gnss_data waypoints u.1 u.2 s).1)
        s).current_waypoint_index ≤ waypoints.length := by
    induction updates with
    | nil => intro s hs; exact hs
    | cons u rest ih =>
      intro s hs
      exact ih _ (process_idx_le waypoints u.1 u.2 s hs)
  exact h PlannerState.init (Nat.zero_le _)

theorem lookaheadScan_mem (pos : ℝ × ℝ) (ld : ℝ) :
    ∀ (l : List (ℝ × ℝ)) (i j : ℕ) (w : ℝ × ℝ),
      lookaheadScan pos ld l i = some (w, j) → w ∈ l := by
  intro l
  induction l with
  | nil => intro i j w h; simp [lookaheadScan] at h
  | cons a rest ih =>
    intro i j w h
    unfold lookaheadScan at h
    split at h
    · simp only [Option.some.injEq, Prod.mk.injEq] at h
      simp [h.1]
    · exact List.mem_cons_of_mem _ (ih _ _ _ h)

theorem find_lookahead_some (position : ℝ × ℝ) (waypoints : List (ℝ × ℝ))
    (i : ℕ) (ld : ℝ) (h : waypoints ≠ []) :
    ∃ w, (find_lookahead_point position waypoints i ld).1 = some w ∧
      w ∈ waypoints := by
  unfold find_lookahead_point
  cases hm : lookaheadScan position ld (waypoints.drop i) i with
  | some wj =>
    obtain ⟨w, j⟩ := wj
    simp only [hm]
    exact ⟨w, rfl, List.drop_subset _ _ (lookaheadScan_mem position ld _ i j w hm)⟩
  | none =>
    simp only [hm]
    rw [List.getLast?_eq_getLast_of_ne_nil h]
    exact ⟨waypoints.getLast h, rfl, List.getLast_mem h⟩

/-- C10: on a nonempty waypoint list `find_lookahead_point` always yields a
waypoint of the list (never `none`), so the planner's "No lookahead point
found" stop branch is unreachable: on a nonempty route `continueTracking`
always emits the driving command (constant throttle 0.4, zero brake), never
the stop command. -/
theorem claim_C10 :
    (∀ (position : ℝ × ℝ) (waypoints : List (ℝ × ℝ)) (i : ℕ) (ld : ℝ),
      waypoints ≠ [] →
        ∃ w, (find_lookahead_point position waypoints i ld).1 = some w ∧
          w ∈ waypoints) ∧
    (∀ (waypoints : List (ℝ × ℝ)) (p : ℝ × ℝ) (s : PlannerState),
      waypoints ≠ [] →
        (continueTracking waypoints p s).2.throttle = 0.4 ∧
        (continueTracking waypoints p s).2.brake = 0) := by
  refine ⟨find_lookahead_some, ?_⟩
  intro waypoints p s hne
  obtain ⟨w, hw, _⟩ :=
    find_lookahead_some p waypoints s.current_waypoint_index 5 hne
  unfold continueTracking
  rw [hw]
  exact ⟨rfl, rfl⟩

theorem atan2_of_pos {y x : ℝ} (hx : 0 < x) : atan2 y x = Real.arctan (y / x) := by
  unfold atan2
  rw [if_pos hx]

theorem steering_eq_spec (p : ℝ × ℝ) (theta : ℝ) (t : ℝ × ℝ) (wheelbase : ℝ) :
    calculate_pure_pursuit_steering p theta t wheelbase =
      steering_spec p theta t wheelbase := by
  simp only [calculate_pure_pursuit_steering, steering_spec]
  have harg : (t.1 - p.1) * (t.1 - p.1) + (t.2 - p.2) * (t.2 - p.2) =
      (t.1 - p.1) ^ 2 + (t.2 - p.2) ^ 2 := by ring
  rw [harg]

theorem steering_bounds (p : ℝ × ℝ) (theta : ℝ) (t : ℝ × ℝ) (wheelbase : ℝ) :
    -1 ≤ calculate_pure_pursuit_steering p theta t wheelbase ∧
      calculate_pure_pursuit_steering p theta t wheelbase ≤ 1 := by
  simp only [calculate_pure_pursuit_steering]
  split
  · norm_num
  · exact ⟨le_max_left _ _, max_le (by norm_num) (min_le_left _ _)⟩

theorem steering_target_left_pos :
    0 < calculate_pure_pursuit_steering (0, 0) 0 ((5 : ℝ), (5 : ℝ)) 2.89 := by
  simp only [calculate_pure_pursuit_steering]
  rw [show ((5 : ℝ) - 0) = 5 by norm_num]
  rw [show (5 : ℝ) * 5 + 5 * 5 = 50 by norm_num]
  rw [sub_zero]
  rw [if_neg (not_lt.2 ((Real.le_sqrt (by norm_num) (by norm_num)).2
    (by norm_num : ((0.1 : ℝ)) ^ 2 ≤ 50)))]
  have h45 : atan2 (5 : ℝ) 5 = Real.pi / 4 := by
    rw [atan2_of_pos (by norm_num : (0 : ℝ) < 5)]
    norm_num [Real.arctan_one]
  rw [h45, Real.sin_pi_div_four, Real.cos_pi_div_four]
  have hs2 : (0 : ℝ) < Real.sqrt 2 / 2 :=
    div_pos (Real.sqrt_pos.2 (by norm_num)) (by norm_num)
  have halpha : atan2 (Real.sqrt 2 / 2) (Real.sqrt 2 / 2) = Real.pi / 4 := by
    rw [atan2_of_pos hs2, div_self (ne_of_gt hs2), Real.arctan_one]
  rw [halpha, Real.sin_pi_div_four]
  have hA : (0 : ℝ) < 2 * 2.89 * (Real.sqrt 2 / 2) / Real.sqrt 50 := by positivity
  have harct : 0 < Real.arctan (2 * 2.89 * (Real.sqrt 2 / 2) / Real.sqrt 50) := by
    have h := Real.arctan_strictMono hA
    rwa [Real.arctan_zero] at h
  exact lt_of_lt_of_le (lt_min one_pos (div_pos harct (by norm_num)))
    (le_max_right _ _)

theorem steering_target_ahead_zero :
    calculate_pure_pursuit_steering (0, 0) 0 ((5 : ℝ), (0 : ℝ)) 2.89 = 0 := by
  simp only [calculate_pure_pursuit_steering]
  rw [show ((5 : ℝ) - 0) = 5 by norm_num, show ((0 : ℝ) - 0) = 0 by norm_num]
  rw [show (5 : ℝ) * 5 + 0 * 0 = 5 ^ 2 by norm_num,
    Real.sqrt_sq (by norm_num : (0 : ℝ) ≤ 5)]
  rw [if_neg (by norm_num : ¬((5 : ℝ) < 0.1))]
  rw [sub_zero]
  have h0 : atan2 (0 : ℝ) 5 = 0 := by
    rw [atan2_of_pos (by norm_num : (0 : ℝ) < 5)]
    norm_num [Real.arctan_zero]
  rw [h0, Real.sin_zero, Real.cos_zero]
  have h1 : atan2 (0 : ℝ) 1 = 0 := by
    rw [atan2_of_pos one_pos]
    norm_num [Real.arctan_zero]
  rw [h1, Real.sin_zero]
  rw [show (2 : ℝ) * 2.89 * 0 / 5 = 0 by norm_num, Real.arctan_zero]
  rw [show (0 : ℝ) / 0.52 = 0 by norm_num]
  rw [min_eq_right (by norm_num : (0 : ℝ) ≤ 1),
    max_eq_right (by norm_num : (-1 : ℝ) ≤ 0)]

/-- C4: the Pure Pursuit steering equals the specified formula — zero below
the 0.1 m distance guard, else `clamp(atan(2 * wheelbase * sin(alpha) / ld) / 0.52)`
with `alpha` the wraparound-normalized heading error; for the vehicle at the
origin with heading 0 the steering toward (5,5) is strictly positive and
within `[-1,1]`, and the steering toward (5,0) is exactly 0. -/
theorem claim_C4 :
    (∀ (p : ℝ × ℝ) (theta : ℝ) (t : ℝ × ℝ) (wheelbase : ℝ),
      calculate_pure_pursuit_steering p theta t wheelbase =
        steering_spec p theta t wheelbase) ∧
    0 < calculate_pure_pursuit_steering (0, 0) 0 ((5 : ℝ), (5 : ℝ)) 2.89 ∧
    (-1 ≤ calculate_pure_pursuit_steering (0, 0) 0 ((5 : ℝ), (5 : ℝ)) 2.89 ∧
      calculate_pure_pursuit_steering (0, 0) 0 ((5 : ℝ), (5 : ℝ)) 2.89 ≤ 1) ∧
    calculate_pure_pursuit_steering (0, 0) 0 ((5 : ℝ), (0 : ℝ)) 2.89 = 0 :=
  ⟨steering_eq_spec, steering_target_left_pos, steering_bounds (0, 0) 0 (5, 5) 2.89,
    steering_target_ahead_zero⟩

/-- Witness for C10 on a one-waypoint route. -/
theorem claim_C10_witness :
    (∃ w, (find_lookahead_point ((0 : ℝ), (0 : ℝ)) [((3 : ℝ), (4 : ℝ))] 0 5).1 =
        some w ∧ w ∈ [((3 : ℝ), (4 : ℝ))]) ∧
    (continueTracking [((3 : ℝ), (4 : ℝ))] (0, 0) PlannerState.init).2.throttle = 0.4 ∧
    (continueTracking [((3 : ℝ), (4 : ℝ))] (0, 0) PlannerState.init).2.brake = 0 := by
  refine ⟨claim_C10.1 (0, 0) [(3, 4)] 0 5 (by simp), ?_, ?_⟩
  · exact (claim_C10.2 [(3, 4)] (0, 0) PlannerState.init (by simp)).1
  · exact (claim_C10.2 [(3, 4)] (0, 0) PlannerState.init (by simp)).2

end PlannerOperator
